import Mathlib

/-!
Shallow embedding of the phone-OTP authentication component
(`src/components/PhoneAuth.js`) of `my-firebase-phone-app`.

The component's React state — `phoneNumber`, `otp`, `confirmationResult`,
`user`, `loading`, `error` — together with the global
`window.recaptchaVerifier` slot is modelled as `ComponentState`.  Opaque
provider objects (the `ConfirmationResult` and the `RecaptchaVerifier`
instance) are identified by `Nat` ids; the authenticated user object is
`Session`.  Each event handler (`sendOtp`, `verifyOtp`, `resetStates`,
`signOut`) becomes a pure function from the state and an environment
outcome (what the awaited external SDK call returned or threw) to the new
state plus a trace of external calls (`Event`).  The `async`/`await`
structure is sequentialised: the `finally { setLoading(false) }` blocks
are folded into the resulting state of each branch.
-/

namespace PhoneAuthApp

/-- The authenticated user object delivered by a successful
`confirmationResult.confirm(otp)` (`result.user` in the source):
its phone number and uid. -/
structure Session where
  sessionPhone : String
  uid : String
  deriving DecidableEq, Repr

/-- An error thrown by a firebase SDK call: its `error.code` and
`error.message` fields.  A JS error without a `code` property is modelled
with `code := ""` (no mapped branch tests for the empty string). -/
structure ProviderError where
  code : String
  message : String
  deriving DecidableEq, Repr

/-- External calls made by the component, recorded as a trace.
`clearVerifier`/`createVerifier` are `recaptchaVerifier.clear()` and
`new RecaptchaVerifier(...)`; `requestCode` is
`signInWithPhoneNumber(auth, phoneNumber, appVerifier)`; `confirmCode` is
`confirmationResult.confirm(otp)`; `signOutCall` is `auth.signOut()`. -/
inductive Event where
  | clearVerifier (id : Nat)
  | createVerifier (id : Nat)
  | requestCode (phone : String) (verifierId : Nat)
  | confirmCode (handle : Nat) (code : String)
  | signOutCall
  deriving DecidableEq, Repr

/-- The component's state: the six `useState` fields of `PhoneAuth` plus
the module-global `window.recaptchaVerifier` slot.  `confirmationResult`
and `recaptchaVerifier` hold the id of the opaque provider object, or
`none` for JS `null`. -/
structure ComponentState where
  phoneNumber : String
  otp : String
  confirmationResult : Option Nat
  user : Option Session
  loading : Bool
  error : String
  recaptchaVerifier : Option Nat
  deriving DecidableEq, Repr

/-- Outcome of `new RecaptchaVerifier(auth, 'recaptcha-container', ...)`:
either a fresh verifier object (with id `id`), or the constructor throws. -/
inductive RecaptchaOutcome where
  | ok (id : Nat)
  | fails
  deriving DecidableEq, Repr

/-- Outcome of the awaited `signInWithPhoneNumber` call: a confirmation
object (with id `handle`) or a thrown provider error. -/
inductive RequestOutcome where
  | ok (handle : Nat)
  | err (e : ProviderError)
  deriving DecidableEq, Repr

/-- Environment for one `sendOtp` run: what the two external operations
would return if reached. -/
structure SendEnv where
  recaptcha : RecaptchaOutcome
  request : RequestOutcome
  deriving DecidableEq, Repr

/-- Outcome of the awaited `confirmationResult.confirm(otp)` call. -/
inductive ConfirmOutcome where
  | ok (u : Session)
  | err (e : ProviderError)
  deriving DecidableEq, Repr

/-- Outcome of the awaited `auth.signOut()` call. -/
inductive SignOutOutcome where
  | ok
  | fails
  deriving DecidableEq, Repr

/-- The five UI states named by the spec (§4.2), derived from the React
state: `user` set ⇒ `Authenticated` (the component renders the success
card); otherwise `confirmationResult` set selects the code-entry form
(`AwaitingCode`, or `Verifying` while `loading`), and `null` selects the
phone form (`Idle`, or `Sending` while `loading`). -/
inductive MachineState where
  | Idle
  | Sending
  | AwaitingCode
  | Verifying
  | Authenticated
  deriving DecidableEq, Repr

def machineState (s : ComponentState) : MachineState :=
  match s.user with
  | some _ => MachineState.Authenticated
  | none =>
    match s.confirmationResult with
    | some _ => if s.loading then MachineState.Verifying else MachineState.AwaitingCode
    | none => if s.loading then MachineState.Sending else MachineState.Idle

/-- `validatePhoneNumber` (source lines 48–51): the regex
`^\+[1-9]\d{1,14}$` — a `+`, one digit `1`–`9`, then 1 to 14 further
digits, nothing else. -/
def validatePhoneNumber (phone : String) : Bool :=
  match phone.toList with
  | '+' :: first :: rest =>
    ('1' ≤ first && first ≤ '9')
      && (1 ≤ rest.length && rest.length ≤ 14)
      && rest.all (fun c => c.isDigit)
  | _ => false

/-- JS `String.prototype.trim()`: strips leading and trailing whitespace
(modelled with `Char.isWhitespace`).  The source uses it only to test for
blank input (`!phoneNumber.trim()`, `!otp.trim()`). -/
def jsTrim (s : String) : String :=
  String.mk (((s.toList.dropWhile Char.isWhitespace).reverse.dropWhile
    Char.isWhitespace).reverse)

/-- `setupRecaptcha` (source lines 24–45): clears any existing verifier,
then tries to construct a fresh one into `window.recaptchaVerifier`.  If
the constructor throws, the assignment never happens, so the slot keeps
its old (now cleared) value and the setup-failure message is set. -/
def setupRecaptcha (s : ComponentState) (o : RecaptchaOutcome) :
    ComponentState × List Event :=
  let clearEvents : List Event :=
    match s.recaptchaVerifier with
    | some v => [Event.clearVerifier v]
    | none => []
  match o with
  | RecaptchaOutcome.ok newId =>
    ({ s with recaptchaVerifier := some newId },
      clearEvents ++ [Event.createVerifier newId])
  | RecaptchaOutcome.fails =>
    ({ s with error := "reCAPTCHA setup failed. Please refresh the page." },
      clearEvents)

/-- The `catch` block of `sendOtp` (source lines 89–103): provider error
code → user-facing message; an unmapped code surfaces `error.message`
unless it is falsy (empty), in which case the generic fallback is used. -/
def mapSendError (e : ProviderError) : String :=
  if e.code = "auth/invalid-phone-number" then "Invalid phone number format"
  else if e.code = "auth/missing-phone-number" then "Phone number is required"
  else if e.code = "auth/quota-exceeded" then "SMS quota exceeded. Please try again later"
  else if e.code = "auth/user-disabled" then "This phone number has been disabled"
  else if e.code = "auth/operation-not-allowed" then "Phone authentication is not enabled"
  else if e.code = "auth/too-many-requests" then "Too many requests. Please try again later"
  else if e.message = "" then "Failed to send OTP. Please try again."
  else e.message

/-- The provider error codes given a dedicated branch in `sendOtp`'s
`catch` (source lines 89–100). -/
def mappedSendCode (c : String) : Bool :=
  c = "auth/invalid-phone-number" || c = "auth/missing-phone-number"
    || c = "auth/quota-exceeded" || c = "auth/user-disabled"
    || c = "auth/operation-not-allowed" || c = "auth/too-many-requests"

/-- `sendOtp` (source lines 54–113).  Validation happens before
`setLoading`/`setError` and before any external call.  On the main path,
`setupRecaptcha` runs; a still-null verifier raises the local
`reCAPTCHA not initialized` error (a codeless JS `Error`, so the `catch`
surfaces its message and, the slot being null, clears nothing).
Otherwise `signInWithPhoneNumber` is awaited: success stores the
confirmation and clears the error; failure maps the error and clears the
verifier slot.  `finally` resets `loading`. -/
def sendOtp (s : ComponentState) (env : SendEnv) : ComponentState × List Event :=
  if jsTrim s.phoneNumber = "" then
    ({ s with error := "Please enter a phone number" }, [])
  else if validatePhoneNumber s.phoneNumber = false then
    ({ s with error := "Please enter a valid phone number with country code (e.g., +1234567890)" }, [])
  else
    let s1 : ComponentState := { s with loading := true, error := "" }
    let p := setupRecaptcha s1 env.recaptcha
    match p.1.recaptchaVerifier with
    | none =>
      ({ p.1 with error := "reCAPTCHA not initialized", loading := false }, p.2)
    | some v =>
      match env.request with
      | RequestOutcome.ok conf =>
        ({ p.1 with confirmationResult := some conf, error := "", loading := false },
          p.2 ++ [Event.requestCode s.phoneNumber v])
      | RequestOutcome.err e =>
        ({ p.1 with error := mapSendError e, recaptchaVerifier := none, loading := false },
          p.2 ++ [Event.requestCode s.phoneNumber v, Event.clearVerifier v])

/-- The `catch` block of `verifyOtp` (source lines 143–149): two mapped
codes; every other error yields the fixed message
`Invalid OTP. Please try again.` (the raw message is NOT surfaced). -/
def mapConfirmError (e : ProviderError) : String :=
  if e.code = "auth/invalid-verification-code" then "Invalid OTP. Please check and try again."
  else if e.code = "auth/code-expired" then "OTP has expired. Please request a new one."
  else "Invalid OTP. Please try again."

/-- The provider error codes given a dedicated branch in `verifyOtp`'s
`catch` (source lines 143–146). -/
def mappedConfirmCode (c : String) : Bool :=
  c = "auth/invalid-verification-code" || c = "auth/code-expired"

/-- `verifyOtp` (source lines 116–153): local validation (non-blank OTP,
length exactly 6, confirmation present) precedes the external call; then
`confirmationResult.confirm(otp)` is awaited.  Success stores
`result.user` — and touches nothing else: `confirmationResult` and `otp`
are left as they were.  Failure maps the error; `finally` resets
`loading`. -/
def verifyOtp (s : ComponentState) (o : ConfirmOutcome) : ComponentState × List Event :=
  if jsTrim s.otp = "" then
    ({ s with error := "Please enter the OTP" }, [])
  else if s.otp.length ≠ 6 then
    ({ s with error := "Please enter a 6-digit OTP" }, [])
  else
    match s.confirmationResult with
    | none =>
      ({ s with error := "No confirmation result available. Please request OTP again." }, [])
    | some h =>
      match o with
      | ConfirmOutcome.ok u =>
        ({ s with user := some u, loading := false, error := "" },
          [Event.confirmCode h s.otp])
      | ConfirmOutcome.err e =>
        ({ s with error := mapConfirmError e, loading := false },
          [Event.confirmCode h s.otp])

/-- `resetStates` (source lines 156–167): clears confirmation, both text
fields, error and loading, and disposes the verifier if present. -/
def resetStates (s : ComponentState) : ComponentState × List Event :=
  let base : ComponentState :=
    { s with confirmationResult := none, phoneNumber := "", otp := "",
             error := "", loading := false }
  match s.recaptchaVerifier with
  | some v => ({ base with recaptchaVerifier := none }, [Event.clearVerifier v])
  | none => (base, [])

/-- `signOut` (source lines 170–179): awaits `auth.signOut()`.  On
success, clears `user` and runs `resetStates`.  If the call throws, the
`setUser(null)` and `resetStates()` lines are skipped: only the error
message is set. -/
def signOut (s : ComponentState) (o : SignOutOutcome) : ComponentState × List Event :=
  match o with
  | SignOutOutcome.ok =>
    let p := resetStates { s with user := none }
    (p.1, Event.signOutCall :: p.2)
  | SignOutOutcome.fails =>
    ({ s with error := "Failed to sign out" }, [Event.signOutCall])

/-- The OTP field's `onChange` handler (source line 251):
`e.target.value.replace(/\D/g, '')` — strips every non-digit. -/
def otpOnChange (input : String) : String :=
  String.mk (input.toList.filter (fun c => c.isDigit))

/-- Number of live `RecaptchaVerifier` objects held by the component
in a state: the slot holds at most one. -/
def challengeCount (s : ComponentState) : Nat :=
  match s.recaptchaVerifier with
  | some _ => 1
  | none => 0

/-- Checks, along an event trace started with `n` live verifier objects,
that after every event at most one verifier is live.  `clear` on an
already-disposed object (the source does call `clear()` twice on one
object in the setup-fails-then-request-fails path) saturates at zero. -/
def chkLive (n : Nat) : List Event → Bool
  | [] => true
  | e :: rest =>
    let n2 : Nat :=
      match e with
      | Event.createVerifier _ => n + 1
      | Event.clearVerifier _ => n - 1
      | _ => n
    decide (n2 ≤ 1) && chkLive n2 rest

/-- A typical `Idle` state: phone text entered, everything else initial. -/
def idleState (p : String) : ComponentState :=
  { phoneNumber := p, otp := "", confirmationResult := none, user := none,
    loading := false, error := "", recaptchaVerifier := none }

/-- A typical `AwaitingCode` state: code text entered, confirmation `h`
stored, verifier still mounted. -/
def awaitState (code : String) (h : Nat) : ComponentState :=
  { phoneNumber := "+14155550123", otp := code, confirmationResult := some h,
    user := none, loading := false, error := "", recaptchaVerifier := some 3 }

/-- A typical `Authenticated` state, as left behind by a successful
verification. -/
def authState : ComponentState :=
  { phoneNumber := "+14155550123", otp := "123456", confirmationResult := some 5,
    user := some { sessionPhone := "+14155550123", uid := "uid1" },
    loading := false, error := "", recaptchaVerifier := some 3 }

theorem machineState_eq_idle {s : ComponentState} :
    machineState s = MachineState.Idle ↔
      s.user = none ∧ s.confirmationResult = none ∧ s.loading = false := by
  rcases s with ⟨pn, ot, cr, u, l, er, rv⟩
  cases u <;> cases cr <;> cases l <;> simp [machineState]

theorem machineState_eq_awaiting {s : ComponentState} :
    machineState s = MachineState.AwaitingCode ↔
      s.user = none ∧ s.confirmationResult ≠ none ∧ s.loading = false := by
  rcases s with ⟨pn, ot, cr, u, l, er, rv⟩
  cases u <;> cases cr <;> cases l <;> simp [machineState]

theorem machineState_eq_auth {s : ComponentState} :
    machineState s = MachineState.Authenticated ↔ s.user ≠ none := by
  rcases s with ⟨pn, ot, cr, u, l, er, rv⟩
  cases u <;> cases cr <;> cases l <;> simp [machineState]

/-- C1: a successful `confirmCode` call transitions the machine to
`Authenticated` and stores the resulting Session — but, contrary to the
claim, the ConfirmationHandle and the VerificationCode field are NOT
cleared: the success path only runs `setUser(result.user)`, leaving
`confirmationResult` and `otp` exactly as they were. -/
theorem C1_confirm_success (s : ComponentState) (u : Session) (h : Nat)
    (ht : jsTrim s.otp ≠ "") (hlen : s.otp.length = 6)
    (hc : s.confirmationResult = some h) :
    machineState (verifyOtp s (ConfirmOutcome.ok u)).1 = MachineState.Authenticated
      ∧ (verifyOtp s (ConfirmOutcome.ok u)).1.user = some u
      ∧ (verifyOtp s (ConfirmOutcome.ok u)).1.confirmationResult = some h
      ∧ (verifyOtp s (ConfirmOutcome.ok u)).1.otp = s.otp
      ∧ (verifyOtp s (ConfirmOutcome.ok u)).2 = [Event.confirmCode h s.otp] := by
  simp [verifyOtp, ht, hlen, hc, machineState]

/-- C1 witness: the amended success transition, evaluated at a concrete
`AwaitingCode` state. -/
theorem C1_confirm_success_witness :
    jsTrim (awaitState "123456" 5).otp ≠ ""
      ∧ (awaitState "123456" 5).otp.length = 6
      ∧ (awaitState "123456" 5).confirmationResult = some 5
      ∧ (machineState (verifyOtp (awaitState "123456" 5)
            (ConfirmOutcome.ok ⟨"+14155550123", "uid1"⟩)).1 = MachineState.Authenticated
          ∧ (verifyOtp (awaitState "123456" 5)
              (ConfirmOutcome.ok ⟨"+14155550123", "uid1"⟩)).1.user
            = some ⟨"+14155550123", "uid1"⟩
          ∧ (verifyOtp (awaitState "123456" 5)
              (ConfirmOutcome.ok ⟨"+14155550123", "uid1"⟩)).1.confirmationResult = some 5
          ∧ (verifyOtp (awaitState "123456" 5)
              (ConfirmOutcome.ok ⟨"+14155550123", "uid1"⟩)).1.otp
            = (awaitState "123456" 5).otp
          ∧ (verifyOtp (awaitState "123456" 5)
              (ConfirmOutcome.ok ⟨"+14155550123", "uid1"⟩)).2
            = [Event.confirmCode 5 (awaitState "123456" 5).otp]) :=
  ⟨by decide, by decide, by decide,
    C1_confirm_success (awaitState "123456" 5) ⟨"+14155550123", "uid1"⟩ 5
      (by decide) (by decide) (by decide)⟩

/-- C1 counterexample: after a successful confirmation from a concrete
`AwaitingCode` state, the ConfirmationHandle is still stored and the
VerificationCode field is not cleared, so the claim as stated is false. -/
theorem C1_counterexample :
    (verifyOtp (awaitState "123456" 5)
        (ConfirmOutcome.ok ⟨"+14155550123", "uid1"⟩)).1.user
      = some ⟨"+14155550123", "uid1"⟩
      ∧ ¬ (verifyOtp (awaitState "123456" 5)
            (ConfirmOutcome.ok ⟨"+14155550123", "uid1"⟩)).1.confirmationResult = none
      ∧ ¬ (verifyOtp (awaitState "123456" 5)
            (ConfirmOutcome.ok ⟨"+14155550123", "uid1"⟩)).1.otp = "" := by
  decide

/-- C3: a phone string failing the E.164 regex is rejected before any
external call: the trace is empty, the machine stays `Idle`, one of the
two validation messages is set, and every other field is untouched. -/
theorem C3_invalid_phone_rejected (s : ComponentState) (env : SendEnv)
    (hidle : machineState s = MachineState.Idle)
    (hval : validatePhoneNumber s.phoneNumber = false) :
    (sendOtp s env).2 = []
      ∧ machineState (sendOtp s env).1 = MachineState.Idle
      ∧ ((sendOtp s env).1.error = "Please enter a phone number"
          ∨ (sendOtp s env).1.error
            = "Please enter a valid phone number with country code (e.g., +1234567890)")
      ∧ (sendOtp s env).1.confirmationResult = s.confirmationResult
      ∧ (sendOtp s env).1.user = s.user
      ∧ (sendOtp s env).1.recaptchaVerifier = s.recaptchaVerifier
      ∧ (sendOtp s env).1.phoneNumber = s.phoneNumber := by
  obtain ⟨hu, hc, hl⟩ := machineState_eq_idle.mp hidle
  by_cases htrim : jsTrim s.phoneNumber = ""
  · simp [sendOtp, htrim, machineState, hu, hc, hl]
  · simp [sendOtp, htrim, hval, machineState, hu, hc, hl]

/-- C3 witness: the spec's own scenario, input `5551234` (no `+`). -/
theorem C3_invalid_phone_rejected_witness :
    machineState (idleState "5551234") = MachineState.Idle
      ∧ validatePhoneNumber (idleState "5551234").phoneNumber = false
      ∧ ((sendOtp (idleState "5551234") ⟨RecaptchaOutcome.ok 1, RequestOutcome.ok 2⟩).2 = []
          ∧ machineState (sendOtp (idleState "5551234")
              ⟨RecaptchaOutcome.ok 1, RequestOutcome.ok 2⟩).1 = MachineState.Idle
          ∧ ((sendOtp (idleState "5551234")
                ⟨RecaptchaOutcome.ok 1, RequestOutcome.ok 2⟩).1.error
              = "Please enter a phone number"
              ∨ (sendOtp (idleState "5551234")
                  ⟨RecaptchaOutcome.ok 1, RequestOutcome.ok 2⟩).1.error
                = "Please enter a valid phone number with country code (e.g., +1234567890)")
          ∧ (sendOtp (idleState "5551234")
              ⟨RecaptchaOutcome.ok 1, RequestOutcome.ok 2⟩).1.confirmationResult
            = (idleState "5551234").confirmationResult
          ∧ (sendOtp (idleState "5551234")
              ⟨RecaptchaOutcome.ok 1, RequestOutcome.ok 2⟩).1.user = (idleState "5551234").user
          ∧ (sendOtp (idleState "5551234")
              ⟨RecaptchaOutcome.ok 1, RequestOutcome.ok 2⟩).1.recaptchaVerifier
            = (idleState "5551234").recaptchaVerifier
          ∧ (sendOtp (idleState "5551234")
              ⟨RecaptchaOutcome.ok 1, RequestOutcome.ok 2⟩).1.phoneNumber
            = (idleState "5551234").phoneNumber) :=
  ⟨by decide, by decide,
    C3_invalid_phone_rejected (idleState "5551234")
      ⟨RecaptchaOutcome.ok 1, RequestOutcome.ok 2⟩ (by decide) (by decide)⟩

/-- C4: a code whose length is not 6 is rejected before the external
call: empty trace, machine stays `AwaitingCode`, one of the two local
validation messages is set, and the handle and fields are untouched. -/
theorem C4_bad_length_rejected (s : ComponentState) (o : ConfirmOutcome)
    (hawait : machineState s = MachineState.AwaitingCode)
    (hlen : s.otp.length ≠ 6) :
    (verifyOtp s o).2 = []
      ∧ machineState (verifyOtp s o).1 = MachineState.AwaitingCode
      ∧ ((verifyOtp s o).1.error = "Please enter the OTP"
          ∨ (verifyOtp s o).1.error = "Please enter a 6-digit OTP")
      ∧ (verifyOtp s o).1.confirmationResult = s.confirmationResult
      ∧ (verifyOtp s o).1.user = s.user
      ∧ (verifyOtp s o).1.otp = s.otp := by
  obtain ⟨hu, hc, hl⟩ := machineState_eq_awaiting.mp hawait
  obtain ⟨h, hcs⟩ := Option.ne_none_iff_exists'.mp hc
  by_cases htrim : jsTrim s.otp = ""
  · simp [verifyOtp, htrim, machineState, hu, hcs, hl]
  · simp [verifyOtp, htrim, hlen, machineState, hu, hcs, hl]

/-- C4 witness: a 3-character code in a concrete `AwaitingCode` state. -/
theorem C4_bad_length_rejected_witness :
    machineState (awaitState "123" 5) = MachineState.AwaitingCode
      ∧ (awaitState "123" 5).otp.length ≠ 6
      ∧ ((verifyOtp (awaitState "123" 5) (ConfirmOutcome.ok ⟨"+14155550123", "uid1"⟩)).2 = []
          ∧ machineState (verifyOtp (awaitState "123" 5)
              (ConfirmOutcome.ok ⟨"+14155550123", "uid1"⟩)).1 = MachineState.AwaitingCode
          ∧ ((verifyOtp (awaitState "123" 5)
                (ConfirmOutcome.ok ⟨"+14155550123", "uid1"⟩)).1.error = "Please enter the OTP"
              ∨ (verifyOtp (awaitState "123" 5)
                  (ConfirmOutcome.ok ⟨"+14155550123", "uid1"⟩)).1.error
                = "Please enter a 6-digit OTP")
          ∧ (verifyOtp (awaitState "123" 5)
              (ConfirmOutcome.ok ⟨"+14155550123", "uid1"⟩)).1.confirmationResult
            = (awaitState "123" 5).confirmationResult
          ∧ (verifyOtp (awaitState "123" 5)
              (ConfirmOutcome.ok ⟨"+14155550123", "uid1"⟩)).1.user = (awaitState "123" 5).user
          ∧ (verifyOtp (awaitState "123" 5)
              (ConfirmOutcome.ok ⟨"+14155550123", "uid1"⟩)).1.otp
            = (awaitState "123" 5).otp) :=
  ⟨by decide, by decide,
    C4_bad_length_rejected (awaitState "123" 5)
      (ConfirmOutcome.ok ⟨"+14155550123", "uid1"⟩) (by decide) (by decide)⟩

theorem mapSendError_ne_empty (e : ProviderError) : mapSendError e ≠ "" := by
  unfold mapSendError
  split_ifs <;> simp_all

/-- C5: when the recaptcha setup succeeds but `signInWithPhoneNumber`
throws, the machine returns to `Idle`, the verifier slot is nulled (so a
fresh ChallengeHandle is built on the next attempt), no confirmation is
stored, and a non-empty taxonomy message is set —
`auth/quota-exceeded` in particular maps to the quota message. -/
theorem C5_request_failure (s : ComponentState) (env : SendEnv) (v : Nat)
    (e : ProviderError)
    (hidle : machineState s = MachineState.Idle)
    (htrim : jsTrim s.phoneNumber ≠ "")
    (hval : validatePhoneNumber s.phoneNumber = true)
    (hr : env.recaptcha = RecaptchaOutcome.ok v)
    (hq : env.request = RequestOutcome.err e) :
    machineState (sendOtp s env).1 = MachineState.Idle
      ∧ (sendOtp s env).1.recaptchaVerifier = none
      ∧ (sendOtp s env).1.confirmationResult = none
      ∧ (sendOtp s env).1.error = mapSendError e
      ∧ (sendOtp s env).1.error ≠ ""
      ∧ (e.code = "auth/quota-exceeded" →
          (sendOtp s env).1.error = "SMS quota exceeded. Please try again later") := by
  obtain ⟨hu, hc, hl⟩ := machineState_eq_idle.mp hidle
  refine ⟨?_, ?_, ?_, ?_, ?_, ?_⟩ <;>
    simp [sendOtp, setupRecaptcha, htrim, hval, hr, hq, machineState, hu, hc,
      mapSendError_ne_empty]
  intro hcode
  simp [mapSendError, hcode]

/-- C5 witness: the spec's quota scenario from a concrete `Idle` state. -/
theorem C5_request_failure_witness :
    machineState (idleState "+14155550123") = MachineState.Idle
      ∧ jsTrim (idleState "+14155550123").phoneNumber ≠ ""
      ∧ validatePhoneNumber (idleState "+14155550123").phoneNumber = true
      ∧ (machineState (sendOtp (idleState "+14155550123")
            ⟨RecaptchaOutcome.ok 1,
              RequestOutcome.err ⟨"auth/quota-exceeded", "quota"⟩⟩).1 = MachineState.Idle
          ∧ (sendOtp (idleState "+14155550123")
              ⟨RecaptchaOutcome.ok 1,
                RequestOutcome.err ⟨"auth/quota-exceeded", "quota"⟩⟩).1.recaptchaVerifier = none
          ∧ (sendOtp (idleState "+14155550123")
              ⟨RecaptchaOutcome.ok 1,
                RequestOutcome.err ⟨"auth/quota-exceeded", "quota"⟩⟩).1.confirmationResult
            = none
          ∧ (sendOtp (idleState "+14155550123")
              ⟨RecaptchaOutcome.ok 1,
                RequestOutcome.err ⟨"auth/quota-exceeded", "quota"⟩⟩).1.error
            = mapSendError ⟨"auth/quota-exceeded", "quota"⟩
          ∧ (sendOtp (idleState "+14155550123")
              ⟨RecaptchaOutcome.ok 1,
                RequestOutcome.err ⟨"auth/quota-exceeded", "quota"⟩⟩).1.error ≠ ""
          ∧ (ProviderError.code ⟨"auth/quota-exceeded", "quota"⟩ = "auth/quota-exceeded" →
              (sendOtp (idleState "+14155550123")
                ⟨RecaptchaOutcome.ok 1,
                  RequestOutcome.err ⟨"auth/quota-exceeded", "quota"⟩⟩).1.error
                = "SMS quota exceeded. Please try again later")) :=
  ⟨by decide, by decide, by decide,
    C5_request_failure (idleState "+14155550123")
      ⟨RecaptchaOutcome.ok 1, RequestOutcome.err ⟨"auth/quota-exceeded", "quota"⟩⟩ 1
      ⟨"auth/quota-exceeded", "quota"⟩ (by decide) (by decide) (by decide) rfl rfl⟩

/-- C6: a failing `confirmCode` call keeps the machine in `AwaitingCode`
with the very same ConfirmationHandle, sets the taxonomy message, and
`auth/invalid-verification-code` maps to the InvalidCode message. -/
theorem C6_confirm_failure (s : ComponentState) (h : Nat) (e : ProviderError)
    (hawait : machineState s = MachineState.AwaitingCode)
    (hc : s.confirmationResult = some h)
    (htrim : jsTrim s.otp ≠ "") (hlen : s.otp.length = 6) :
    machineState (verifyOtp s (ConfirmOutcome.err e)).1 = MachineState.AwaitingCode
      ∧ (verifyOtp s (ConfirmOutcome.err e)).1.confirmationResult = some h
      ∧ (verifyOtp s (ConfirmOutcome.err e)).1.user = s.user
      ∧ (verifyOtp s (ConfirmOutcome.err e)).1.error = mapConfirmError e
      ∧ (e.code = "auth/invalid-verification-code" →
          (verifyOtp s (ConfirmOutcome.err e)).1.error
            = "Invalid OTP. Please check and try again.")
      ∧ (verifyOtp s (ConfirmOutcome.err e)).2 = [Event.confirmCode h s.otp] := by
  obtain ⟨hu, _, hl⟩ := machineState_eq_awaiting.mp hawait
  refine ⟨?_, ?_, ?_, ?_, ?_, ?_⟩ <;>
    simp [verifyOtp, htrim, hlen, hc, machineState, hu]
  intro hcode
  simp [mapConfirmError, hcode]

/-- C6 witness: the spec's invalid-code scenario at a concrete state. -/
theorem C6_confirm_failure_witness :
    machineState (awaitState "123456" 5) = MachineState.AwaitingCode
      ∧ (awaitState "123456" 5).confirmationResult = some 5
      ∧ jsTrim (awaitState "123456" 5).otp ≠ ""
      ∧ (awaitState "123456" 5).otp.length = 6
      ∧ (machineState (verifyOtp (awaitState "123456" 5)
            (ConfirmOutcome.err ⟨"auth/invalid-verification-code", "bad"⟩)).1
          = MachineState.AwaitingCode
          ∧ (verifyOtp (awaitState "123456" 5)
              (ConfirmOutcome.err ⟨"auth/invalid-verification-code", "bad"⟩)).1.confirmationResult
            = some 5
          ∧ (verifyOtp (awaitState "123456" 5)
              (ConfirmOutcome.err ⟨"auth/invalid-verification-code", "bad"⟩)).1.user
            = (awaitState "123456" 5).user
          ∧ (verifyOtp (awaitState "123456" 5)
              (ConfirmOutcome.err ⟨"auth/invalid-verification-code", "bad"⟩)).1.error
            = mapConfirmError ⟨"auth/invalid-verification-code", "bad"⟩
          ∧ (ProviderError.code ⟨"auth/invalid-verification-code", "bad"⟩
              = "auth/invalid-verification-code" →
              (verifyOtp (awaitState "123456" 5)
                (ConfirmOutcome.err ⟨"auth/invalid-verification-code", "bad"⟩)).1.error
                = "Invalid OTP. Please check and try again.")
          ∧ (verifyOtp (awaitState "123456" 5)
              (ConfirmOutcome.err ⟨"auth/invalid-verification-code", "bad"⟩)).2
            = [Event.confirmCode 5 (awaitState "123456" 5).otp]) :=
  ⟨by decide, by decide, by decide, by decide,
    C6_confirm_failure (awaitState "123456" 5) 5 ⟨"auth/invalid-verification-code", "bad"⟩
      (by decide) (by decide) (by decide) (by decide)⟩

/-- C9: if `auth.signOut()` throws, the `setUser(null)` and
`resetStates()` lines are skipped: the state is unchanged except for the
error message, and the machine stays `Authenticated`. -/
theorem C9_signout_failure (s : ComponentState)
    (hauth : machineState s = MachineState.Authenticated) :
    signOut s SignOutOutcome.fails
      = ({ s with error := "Failed to sign out" }, [Event.signOutCall])
      ∧ machineState (signOut s SignOutOutcome.fails).1 = MachineState.Authenticated
      ∧ (signOut s SignOutOutcome.fails).1.user = s.user
      ∧ (signOut s SignOutOutcome.fails).1.phoneNumber = s.phoneNumber
      ∧ (signOut s SignOutOutcome.fails).1.otp = s.otp
      ∧ (signOut s SignOutOutcome.fails).1.confirmationResult = s.confirmationResult
      ∧ (signOut s SignOutOutcome.fails).1.recaptchaVerifier = s.recaptchaVerifier := by
  have hu := machineState_eq_auth.mp hauth
  obtain ⟨u, hus⟩ := Option.ne_none_iff_exists'.mp hu
  refine ⟨rfl, ?_, rfl, rfl, rfl, rfl, rfl⟩
  simp [signOut, machineState, hus]

/-- C9 witness: a failing sign-out from a concrete authenticated state. -/
theorem C9_signout_failure_witness :
    machineState authState = MachineState.Authenticated
      ∧ (signOut authState SignOutOutcome.fails
          = ({ authState with error := "Failed to sign out" }, [Event.signOutCall])
          ∧ machineState (signOut authState SignOutOutcome.fails).1
            = MachineState.Authenticated
          ∧ (signOut authState SignOutOutcome.fails).1.user = authState.user
          ∧ (signOut authState SignOutOutcome.fails).1.phoneNumber = authState.phoneNumber
          ∧ (signOut authState SignOutOutcome.fails).1.otp = authState.otp
          ∧ (signOut authState SignOutOutcome.fails).1.confirmationResult
            = authState.confirmationResult
          ∧ (signOut authState SignOutOutcome.fails).1.recaptchaVerifier
            = authState.recaptchaVerifier) :=
  ⟨by decide, C9_signout_failure authState (by decide)⟩

/-- C10: submission validation checks only that the code is non-blank
and has length 6 — any such string, digits or not, is handed verbatim to
`confirmationResult.confirm`; the digits-only restriction lives solely in
the input field's `onChange` filter (`otpOnChange`). -/
theorem C10_code_passed_verbatim (s : ComponentState) (h : Nat) (o : ConfirmOutcome)
    (htrim : jsTrim s.otp ≠ "") (hlen : s.otp.length = 6)
    (hc : s.confirmationResult = some h) :
    (verifyOtp s o).2 = [Event.confirmCode h s.otp]
      ∧ (verifyOtp s o).1.otp = s.otp := by
  cases o <;> simp [verifyOtp, htrim, hlen, hc]

/-- C10 witness: the non-digit 6-character code `a1b2c3` is passed to
`confirmCode` unchanged, even though the `onChange` filter would have
stripped it to `123`. -/
theorem C10_code_passed_verbatim_witness :
    jsTrim (awaitState "a1b2c3" 5).otp ≠ ""
      ∧ (awaitState "a1b2c3" 5).otp.length = 6
      ∧ (awaitState "a1b2c3" 5).confirmationResult = some 5
      ∧ otpOnChange "a1b2c3" = "123"
      ∧ otpOnChange "a1b2c3" ≠ "a1b2c3"
      ∧ ((verifyOtp (awaitState "a1b2c3" 5)
            (ConfirmOutcome.ok ⟨"+14155550123", "uid1"⟩)).2
          = [Event.confirmCode 5 (awaitState "a1b2c3" 5).otp]
          ∧ (verifyOtp (awaitState "a1b2c3" 5)
              (ConfirmOutcome.ok ⟨"+14155550123", "uid1"⟩)).1.otp
            = (awaitState "a1b2c3" 5).otp) :=
  ⟨by decide, by decide, by decide, by decide, by decide,
    C10_code_passed_verbatim (awaitState "a1b2c3" 5) 5
      (ConfirmOutcome.ok ⟨"+14155550123", "uid1"⟩) (by decide) (by decide) (by decide)⟩

theorem challengeCount_le_one (s : ComponentState) : challengeCount s ≤ 1 := by
  rcases h : s.recaptchaVerifier <;> simp [challengeCount, h]

/-- C2: every handler keeps at most one `RecaptchaVerifier` live at every
point of its external-call trace (a creation is always preceded by the
disposal of the previous object), and the state never stores more than
one ChallengeHandle or ConfirmationHandle.  The claim's second half —
that a Session and a pending ConfirmationHandle never coexist — is false
(see the counterexample): a successful confirmation stores the Session
while leaving the ConfirmationHandle in place. -/
theorem C2_handle_bound (s : ComponentState) (env : SendEnv)
    (o : ConfirmOutcome) (so : SignOutOutcome) :
    (chkLive (challengeCount s) (sendOtp s env).2 = true
        ∧ challengeCount (sendOtp s env).1 ≤ 1)
      ∧ (chkLive (challengeCount s) (verifyOtp s o).2 = true
        ∧ challengeCount (verifyOtp s o).1 ≤ 1)
      ∧ (chkLive (challengeCount s) (resetStates s).2 = true
        ∧ challengeCount (resetStates s).1 ≤ 1)
      ∧ (chkLive (challengeCount s) (signOut s so).2 = true
        ∧ challengeCount (signOut s so).1 ≤ 1) := by
  obtain ⟨pn, ot, cr, u, l, er, rv⟩ := s
  refine ⟨⟨?_, challengeCount_le_one _⟩, ⟨?_, challengeCount_le_one _⟩,
    ⟨?_, challengeCount_le_one _⟩, ⟨?_, challengeCount_le_one _⟩⟩
  · by_cases h1 : jsTrim pn = ""
    · simp [sendOtp, h1, chkLive]
    · by_cases h2 : validatePhoneNumber pn = false
      · simp [sendOtp, h1, h2, chkLive]
      · cases rv <;> rcases env with ⟨_ | _, c | e⟩ <;>
          simp [sendOtp, setupRecaptcha, h1, h2, chkLive, challengeCount]
  · by_cases h1 : jsTrim ot = ""
    · simp [verifyOtp, h1, chkLive]
    · by_cases h2 : ot.length = 6
      · cases rv <;> cases cr <;> cases o <;>
          simp [verifyOtp, h1, h2, chkLive, challengeCount]
      · simp [verifyOtp, h1, h2, chkLive]
  · cases rv <;> simp [resetStates, chkLive, challengeCount]
  · cases rv <;> cases so <;> simp [signOut, resetStates, chkLive, challengeCount]

/-- C2 counterexample: after a successful confirmation the state holds a
Session AND still holds the ConfirmationHandle, so the mutual-exclusion
half of the invariant fails. -/
theorem C2_counterexample :
    ((verifyOtp (awaitState "654321" 9)
        (ConfirmOutcome.ok ⟨"+14155550123", "uid2"⟩)).1.user).isSome = true
      ∧ ((verifyOtp (awaitState "654321" 9)
          (ConfirmOutcome.ok ⟨"+14155550123", "uid2"⟩)).1.confirmationResult).isSome
        = true := by
  decide

/-- C7: for provider error codes outside the mapped lists, `sendOtp`
surfaces the raw `error.message` (when non-empty) — but `verifyOtp` does
NOT: its fallback branch always shows the fixed string
`Invalid OTP. Please try again.`, never the raw message. -/
theorem C7_unknown_error_mapping (s : ComponentState) (env : SendEnv)
    (v h : Nat) (e : ProviderError) :
    (jsTrim s.phoneNumber ≠ "" → validatePhoneNumber s.phoneNumber = true →
      env.recaptcha = RecaptchaOutcome.ok v → env.request = RequestOutcome.err e →
      mappedSendCode e.code = false → e.message ≠ "" →
      (sendOtp s env).1.error = e.message)
      ∧ (jsTrim s.otp ≠ "" → s.otp.length = 6 → s.confirmationResult = some h →
        mappedConfirmCode e.code = false →
        (verifyOtp s (ConfirmOutcome.err e)).1.error
          = "Invalid OTP. Please try again.") := by
  constructor
  · intro htrim hval hr hq hm hmsg
    simp [mappedSendCode] at hm
    simp [sendOtp, setupRecaptcha, htrim, hval, hr, hq, mapSendError, hm, hmsg]
  · intro htrim hlen hc hm
    simp [mappedConfirmCode] at hm
    simp [verifyOtp, htrim, hlen, hc, mapConfirmError, hm]

/-- C7 witness: the unmapped code `auth/network-request-failed` with raw
message `Network error` surfaces that message from `sendOtp` but yields
the fixed message from `verifyOtp`. -/
theorem C7_unknown_error_mapping_witness :
    (sendOtp (idleState "+14155550123")
        ⟨RecaptchaOutcome.ok 1,
          RequestOutcome.err ⟨"auth/network-request-failed", "Network error"⟩⟩).1.error
      = "Network error"
      ∧ (verifyOtp (awaitState "654321" 4)
          (ConfirmOutcome.err ⟨"auth/network-request-failed", "Network error"⟩)).1.error
        = "Invalid OTP. Please try again." :=
  ⟨(C7_unknown_error_mapping (idleState "+14155550123")
      ⟨RecaptchaOutcome.ok 1,
        RequestOutcome.err ⟨"auth/network-request-failed", "Network error"⟩⟩ 1 4
      ⟨"auth/network-request-failed", "Network error"⟩).1
    (by decide) (by decide) rfl rfl (by decide) (by decide),
  (C7_unknown_error_mapping (awaitState "654321" 4)
      ⟨RecaptchaOutcome.ok 1,
        RequestOutcome.err ⟨"auth/network-request-failed", "Network error"⟩⟩ 1 4
      ⟨"auth/network-request-failed", "Network error"⟩).2
    (by decide) (by decide) (by decide) (by decide)⟩

/-- C7 counterexample: a `confirmCode` failure with an unmapped code and
a non-empty raw message shows the fixed fallback string, not the raw
message — refuting the claim that both paths surface it. -/
theorem C7_counterexample :
    (verifyOtp (awaitState "135791" 6)
        (ConfirmOutcome.err ⟨"auth/network-request-failed", "Network error"⟩)).1.error
      = "Invalid OTP. Please try again."
      ∧ (verifyOtp (awaitState "135791" 6)
          (ConfirmOutcome.err ⟨"auth/network-request-failed", "Network error"⟩)).1.error
        ≠ "Network error" := by
  decide

/-- C8: on every validated phone submission with a successful verifier
construction, the prior ChallengeHandle (when present) is cleared and a
brand-new one is created unconditionally — there is no reuse of an
existing handle — and the `requestCode` call uses the fresh handle. -/
theorem C8_challenge_recreated (s : ComponentState) (env : SendEnv) (nid : Nat)
    (htrim : jsTrim s.phoneNumber ≠ "")
    (hval : validatePhoneNumber s.phoneNumber = true)
    (hr : env.recaptcha = RecaptchaOutcome.ok nid) :
    (sendOtp s env).2
      = (match s.recaptchaVerifier with
          | some w => [Event.clearVerifier w]
          | none => [])
        ++ [Event.createVerifier nid, Event.requestCode s.phoneNumber nid]
        ++ (match env.request with
            | RequestOutcome.ok _ => []
            | RequestOutcome.err _ => [Event.clearVerifier nid])
      ∧ (∀ c, env.request = RequestOutcome.ok c →
          (sendOtp s env).1.recaptchaVerifier = some nid
            ∧ (sendOtp s env).1.confirmationResult = some c) := by
  rcases hsv : s.recaptchaVerifier with _ | w <;>
    rcases hreq : env.request with c | e <;>
      simp [sendOtp, setupRecaptcha, htrim, hval, hr, hreq, hsv]

/-- C8 witness: with handle 7 mounted, a fresh submit clears 7, creates
8, and requests the code with 8. -/
theorem C8_challenge_recreated_witness :
    jsTrim ({ idleState "+14155550123" with recaptchaVerifier := some 7 }).phoneNumber ≠ ""
      ∧ validatePhoneNumber
          ({ idleState "+14155550123" with recaptchaVerifier := some 7 }).phoneNumber = true
      ∧ ((sendOtp { idleState "+14155550123" with recaptchaVerifier := some 7 }
            ⟨RecaptchaOutcome.ok 8, RequestOutcome.ok 20⟩).2
          = (match ({ idleState "+14155550123" with
                recaptchaVerifier := some 7 }).recaptchaVerifier with
              | some w => [Event.clearVerifier w]
              | none => [])
            ++ [Event.createVerifier 8,
                Event.requestCode
                  ({ idleState "+14155550123" with
                    recaptchaVerifier := some 7 }).phoneNumber 8]
            ++ (match (RequestOutcome.ok 20 : RequestOutcome) with
                | RequestOutcome.ok _ => []
                | RequestOutcome.err _ => [Event.clearVerifier 8])
          ∧ (∀ c, (RequestOutcome.ok 20 : RequestOutcome) = RequestOutcome.ok c →
              (sendOtp { idleState "+14155550123" with recaptchaVerifier := some 7 }
                ⟨RecaptchaOutcome.ok 8, RequestOutcome.ok 20⟩).1.recaptchaVerifier = some 8
                ∧ (sendOtp { idleState "+14155550123" with recaptchaVerifier := some 7 }
                    ⟨RecaptchaOutcome.ok 8, RequestOutcome.ok 20⟩).1.confirmationResult
                  = some c)) :=
  ⟨by decide, by decide,
    C8_challenge_recreated
      { idleState "+14155550123" with recaptchaVerifier := some 7 }
      ⟨RecaptchaOutcome.ok 8, RequestOutcome.ok 20⟩ 8 (by decide) (by decide) rfl⟩

/-- C8 counterexample: an existing, never-errored ChallengeHandle (id 7)
is not reused: the submit clears it, creates handle 8, and calls
`requestCode` with 8. -/
theorem C8_counterexample :
    (sendOtp { idleState "+14155550123" with recaptchaVerifier := some 7 }
        ⟨RecaptchaOutcome.ok 8, RequestOutcome.ok 20⟩).2
      = [Event.clearVerifier 7, Event.createVerifier 8,
          Event.requestCode "+14155550123" 8]
      ∧ (sendOtp { idleState "+14155550123" with recaptchaVerifier := some 7 }
          ⟨RecaptchaOutcome.ok 8, RequestOutcome.ok 20⟩).1.recaptchaVerifier ≠ some 7 := by
  decide

end PhoneAuthApp
